import Mathlib

/-!
# manifest-load-tester: `pkg/manifestledgerloadtest/client.go`

A shallow embedding of the transaction generator of the load tester and the
theorems that settle the specification's claims about it.

Conventions of the embedding.

* A Go function returning `(T, error)` becomes a function into `Except GoError T`.
* A Go pointer or interface that the code itself tests against `nil`, or that a
  getter documents as possibly `nil`, is an `Option`.
* `GenerateTx` is stateful: it drives a transaction builder and calls its
  collaborators in sequence. The embedding passes the builder state explicitly
  and returns, next to the outcome, the list of collaborator calls made.
* The Cosmos SDK is not part of the repository. Its coin and message constructors
  are modelled on the SDK's source, panics included; its signing functions and the
  collaborators of the context are parameters (`Sdk`, `Context`) that the theorems
  quantify over.
* `int64` values are `Int`, `uint64` values are `Nat`; the code does no
  arithmetic on them.
-/

namespace ManifestLoadTest

/-! ## Go values -/

/-- Go byte slice; the `nil` slice is the empty list. -/
abbrev Bytes := List Nat

/-- Go `error` values: `errorString` is what `errors.New` and `fmt.Errorf`
without a `%w` verb build, `wrapError` is what `fmt.Errorf` with one `%w` verb
builds (message and wrapped error). -/
inductive GoError where
  | errorString (s : String)
  | wrapError (msg : String) (err : GoError)
  deriving DecidableEq, Repr

/-- The method `Error()` of an error value. -/
def GoError.Error : GoError → String
  | .errorString s => s
  | .wrapError msg _ => msg

/-- The method `Unwrap()` of an error value, `none` where the error wraps nothing. -/
def GoError.Unwrap : GoError → Option GoError
  | .errorString _ => none
  | .wrapError _ err => some err

/-- The call `fmt.Errorf(ctx + "%w", err)`: the message is the context followed
by the message of `err`, and the result wraps `err`. -/
def Errorf_w (ctx : String) (err : GoError) : GoError :=
  .wrapError (ctx ++ err.Error) err

/-- The call `fmt.Errorf(s)` for a format string without verbs. -/
def Errorf (s : String) : GoError :=
  .errorString s

/-! ## The memo generator -/

/-- The state of the global generator of `math/rand`: the stream of raw values
it is going to produce. -/
abbrev RandSource := Nat → Nat

/-- The call `rand.Intn(n)`: panics (`none`) for `n <= 0`, otherwise returns a value
of `[0, n)` and advances the generator. Every value of `[0, n)` is the residue of
some raw value, so every behaviour of the generator is covered. -/
def Intn (src : RandSource) (n : Nat) : Option (Nat × RandSource) :=
  if n = 0 then none else some (src 0 % n, fun i => src (i + 1))

/-- The constant `charset`. -/
def charset : String := "abcdefghijklmnopqrstuvwxyzABCDEFGHIJKLMNOPQRSTUVWXYZ0123456789"

/-- The index expression `s[i]` on a string of one-byte characters: a run-time
panic (`none`) when `i` is out of range. -/
def index (s : String) (i : Nat) : Option Char :=
  s.data.get? i

/-- The loop of `randomString`, `for i := range b`, with the body
`b[i] = charset[rand.Intn(len(charset))]`, over the `k` cells of `b` that remain: the
characters written and the generator afterwards, `none` when an iteration panics. -/
def randomString.fill : Nat → RandSource → Option (List Char × RandSource)
  | 0, src => some ([], src)
  | k + 1, src =>
    match Intn src charset.length with
    | none => none
    | some (j, src1) =>
      match index charset j with
      | none => none
      | some ch =>
        match randomString.fill k src1 with
        | none => none
        | some (rest, src2) => some (ch :: rest, src2)

/-- The function `randomString(length)`: the string built and the generator
afterwards; `none` when the call panics (`make` with a negative length, an index out
of range, `Intn` with a non-positive bound). -/
def randomString (length : Int) (src : RandSource) : Option (String × RandSource) :=
  if length < 0 then none
  else
    match randomString.fill length.toNat src with
    | none => none
    | some (b, src1) => some (String.mk b, src1)

/-! ## Data of the Cosmos SDK that `GenerateTx` handles -/

/-- The type `types.AccAddress`. -/
structure AccAddress where
  bytes : Bytes
  deriving DecidableEq, Repr

/-- A public key (`cryptotypes.PubKey`). -/
structure PubKey where
  bytes : Bytes
  deriving DecidableEq, Repr

/-- A private key (`cryptotypes.PrivKey`). -/
structure PrivKey where
  bytes : Bytes
  deriving DecidableEq, Repr

/-- The dynamic value behind the `interface` that `Any.GetCachedValue()` returns:
a private key, or a value of a type that is no private key (`nil` included). -/
inductive CachedValue where
  | privKey (k : PrivKey)
  | other
  deriving DecidableEq, Repr

/-- The type `codectypes.Any`, as far as `GenerateTx` reads it. -/
structure AnyValue where
  GetCachedValue : CachedValue
  deriving DecidableEq, Repr

/-- The type `keyring.Record_Local`: `PrivKey` is a pointer and may be `nil`. -/
structure RecordLocal where
  PrivKey : Option AnyValue
  deriving DecidableEq, Repr

/-- The type `keyring.Record`, as far as `GenerateTx` reads it. `GetLocal()` is
the getter of a protobuf oneof: it returns `nil` when the record is not a local
key (a ledger, multisig or offline key). -/
structure Record where
  GetAddress : Except GoError AccAddress
  GetPubKey : Except GoError PubKey
  GetLocal : Option RecordLocal

/-- The interface `client.Account`, as far as `GenerateTx` reads it: the getters
return the same value at every call. -/
structure Account where
  GetAccountNumber : Nat
  GetSequence : Nat
  deriving DecidableEq, Repr

/-- The type `types.Coin`. -/
structure Coin where
  Denom : String
  Amount : Int
  deriving DecidableEq, Repr

/-- The type `types.Coins`. -/
abbrev Coins := List Coin

/-- The type `banktypes.MsgSend`. -/
structure MsgSend where
  FromAddress : AccAddress
  ToAddress : AccAddress
  Amount : Coins
  deriving DecidableEq, Repr

/-- The sign mode of the API (`signingv1beta1.SignMode`). -/
structure APISignMode where
  val : Int
  deriving DecidableEq, Repr

/-- The internal sign mode (`signing.SignMode`). -/
structure SignMode where
  val : Int
  deriving DecidableEq, Repr

/-- The type `signing.SingleSignatureData`; the `nil` signature is `[]`. -/
structure SingleSignatureData where
  SignMode : SignMode
  Signature : Bytes
  deriving DecidableEq, Repr

/-- The type `signing.SignatureV2`. -/
structure SignatureV2 where
  PubKey : PubKey
  Data : SingleSignatureData
  Sequence : Nat
  deriving DecidableEq, Repr

/-- The type `authsigning.SignerData`. -/
structure SignerData where
  ChainID : String
  AccountNumber : Nat
  Sequence : Nat
  PubKey : PubKey
  deriving DecidableEq, Repr

/-- The state of a `client.TxBuilder`, as far as `GenerateTx` writes it; the
transaction `GetTx()` returns is this state. -/
structure TxBuilder where
  msgs : List MsgSend
  gasLimit : Nat
  feeAmount : Coins
  memo : String
  signatures : List SignatureV2
  deriving DecidableEq, Repr

/-- The interface `client.TxConfig`, as far as `GenerateTx` uses it.
`SetMsgsErr` and `SetSignaturesErr` say which arguments the builders of this
configuration reject, and with which error. -/
structure TxConfig where
  NewTxBuilder : TxBuilder
  DefaultMode : APISignMode
  TxEncoder : TxBuilder → Except GoError Bytes
  SetMsgsErr : List MsgSend → Option GoError
  SetSignaturesErr : List SignatureV2 → Option GoError

/-- The interface `keyring.Keyring`, as far as `GenerateTx` uses it. -/
structure Keyring where
  Key : String → Except GoError Record

/-- The interface `client.AccountRetriever`, as far as `GenerateTx` uses it; the
context argument of `GetAccount` is the context the retriever belongs to. -/
structure AccountRetriever where
  GetAccount : AccAddress → Except GoError Account

/-- The type `client.Context`, as far as `GenerateTx` reads it. -/
structure Context where
  TxConfig : TxConfig
  Keyring : Keyring
  AccountRetriever : AccountRetriever
  ChainID : String

/-! ## Functions of the Cosmos SDK

`GenerateTx` builds its coins and its message with functions of the Cosmos SDK, which
is not part of the repository. The coin and message constructors are modelled here on
the SDK's `types/coin.go` and `x/bank/types/msgs.go`; a result `.error msg` of a
constructor is a run-time panic with that message. The sign-mode conversion and the
signing function stay parameters (`Sdk`). -/

/-- The predicate `isValidRune` of the SDK: an ASCII letter or digit, or one of
`/`, `:`, `.`, `_`, `-`. -/
def isValidRune (ch : Char) : Bool :=
  ch.isAlphanum || ch == '/' || ch == ':' || ch == '.' || ch == '_' || ch == '-'

/-- The function `types.ValidateDenom`, `true` for a `nil` error: a denomination is an
ASCII letter followed by 2 to 127 valid characters. -/
def ValidateDenom (denom : String) : Bool :=
  match denom.data with
  | [] => false
  | first :: rest =>
    first.isAlpha && decide (2 ≤ rest.length) && decide (rest.length ≤ 127) &&
      rest.all isValidRune

/-- The function `types.NewInt64Coin`: it panics on an invalid denomination and on a
negative amount, and builds the coin otherwise. -/
def NewInt64Coin (denom : String) (amount : Int) : Except String Coin :=
  if ValidateDenom denom = false then .error ("invalid denom: " ++ denom)
  else if amount < 0 then .error ("negative coin amount: " ++ toString amount)
  else .ok { Denom := denom, Amount := amount }

/-- The function `removeZeroCoins` of the SDK. -/
def removeZeroCoins (coins : List Coin) : List Coin :=
  coins.filter (fun coin => coin.Amount != 0)

/-- The method `Coins.Sort`: the coins in the order of their denominations. -/
def Coins.Sort (coins : Coins) : Coins :=
  coins.insertionSort (fun a b => a.Denom ≤ b.Denom)

/-- The method `Coins.Validate`, `true` for a `nil` error: every denomination is
valid, every amount is positive, and the denominations strictly increase. -/
def Coins.Validate : Coins → Bool
  | [] => true
  | [coin] => ValidateDenom coin.Denom && decide (0 < coin.Amount)
  | coin :: next :: rest =>
    ValidateDenom coin.Denom && decide (0 < coin.Amount) && decide (coin.Denom < next.Denom) &&
      Coins.Validate (next :: rest)

/-- The function `types.NewCoins`: it drops the coins of amount zero, sorts the rest,
and panics when the result is not a valid coin set. -/
def NewCoins (coins : List Coin) : Except String Coins :=
  if Coins.Validate (Coins.Sort (removeZeroCoins coins)) then
    .ok (Coins.Sort (removeZeroCoins coins))
  else .error "invalid coin set"

/-- The function `banktypes.NewMsgSend`: a pointer to a new message, never `nil`. -/
def NewMsgSend (fromAddr toAddr : AccAddress) (amount : Coins) : Option MsgSend :=
  some { FromAddress := fromAddr, ToAddress := toAddr, Amount := amount }

/-- The functions of the Cosmos SDK that are parameters of the embedding:
`authsigning.APISignModeToInternal` and `tx.SignWithPrivKey` (sign mode, signer data,
builder, private key, transaction configuration, sequence). -/
structure Sdk where
  APISignModeToInternal : APISignMode → Except GoError SignMode
  SignWithPrivKey :
    SignMode → SignerData → TxBuilder → PrivKey → TxConfig → Nat → Except GoError SignatureV2

/-! ## Builder operations -/

/-- The method `TxBuilder.SetMsgs`. -/
def TxBuilder.SetMsgs (cfg : TxConfig) (b : TxBuilder) (msgs : List MsgSend) :
    Except GoError TxBuilder :=
  match cfg.SetMsgsErr msgs with
  | some err => .error err
  | none => .ok { b with msgs := msgs }

/-- The method `TxBuilder.SetGasLimit`. -/
def TxBuilder.SetGasLimit (b : TxBuilder) (limit : Nat) : TxBuilder :=
  { b with gasLimit := limit }

/-- The method `TxBuilder.SetFeeAmount`. -/
def TxBuilder.SetFeeAmount (b : TxBuilder) (amount : Coins) : TxBuilder :=
  { b with feeAmount := amount }

/-- The method `TxBuilder.SetMemo`. -/
def TxBuilder.SetMemo (b : TxBuilder) (memo : String) : TxBuilder :=
  { b with memo := memo }

/-- The method `TxBuilder.SetSignatures`. -/
def TxBuilder.SetSignatures (cfg : TxConfig) (b : TxBuilder) (sigs : List SignatureV2) :
    Except GoError TxBuilder :=
  match cfg.SetSignaturesErr sigs with
  | some err => .error err
  | none => .ok { b with signatures := sigs }

/-- The method `TxBuilder.GetTx`. -/
def TxBuilder.GetTx (b : TxBuilder) : TxBuilder := b

/-! ## The client -/

/-- The type `Params`. -/
structure Params where
  Fee : Int
  Amount : Int
  Denom : String
  GasLimit : Nat
  deriving DecidableEq, Repr

/-- The type `CosmosClientFactory`. -/
structure CosmosClientFactory where
  clientCtx : Context
  params : Params

/-- The type `CosmosClient`. -/
structure CosmosClient where
  clientCtx : Context
  params : Params

/-- The function `NewCosmosClientFactory`. -/
def NewCosmosClientFactory (clientCtx : Context) (params : Params) : CosmosClientFactory :=
  { clientCtx := clientCtx, params := params }

/-- The method `ValidateConfig` of the factory: the error returned (`none` is the
`nil` error) and the factory afterwards. `Config` is `loadtest.Config`, which the
method does not read. -/
def CosmosClientFactory.ValidateConfig {Config : Type} (f : CosmosClientFactory)
    (_cfg : Config) : Option GoError × CosmosClientFactory :=
  (none, f)

/-- The method `NewClient` of the factory: the client, the error returned and the
factory afterwards. -/
def CosmosClientFactory.NewClient {Config : Type} (f : CosmosClientFactory)
    (_cfg : Config) : CosmosClient × Option GoError × CosmosClientFactory :=
  ({ clientCtx := f.clientCtx, params := f.params }, none, f)

/-- The calls `GenerateTx` makes on its collaborators and on the builder. -/
inductive Event where
  | keyLookup (uid : String)
  | setMsgs (msgs : List MsgSend)
  | setGasLimit (limit : Nat)
  | setFeeAmount (amount : Coins)
  | setMemo (memo : String)
  | accountLookup (addr : AccAddress)
  | setSignatures (sigs : List SignatureV2)
  | sign (mode : SignMode) (data : SignerData) (b : TxBuilder) (priv : PrivKey) (accSeq : Nat)
  | encode (tx : TxBuilder)
  deriving DecidableEq, Repr

/-- How a call of `GenerateTx` ends: the bytes with a `nil` error, `nil` bytes with
an error, or a run-time panic. -/
inductive Outcome where
  | bytes (b : Bytes)
  | error (err : GoError)
  | panicked (msg : String)
  deriving DecidableEq, Repr

/-- A run of `GenerateTx`: how it ended and the calls it made, in order. -/
structure Run where
  result : Outcome
  trace : List Event
  deriving DecidableEq, Repr

/-- The method `GenerateTx` of the client, statement by statement, on the SDK
functions `sdk` and the generator state `src`. The lists `t1`, ..., `t10` hold the calls
made so far; every `return` of the source is one of the runs built here. The runs that
panic are the ones in which a coin constructor panics and the one in which the source
dereferences `r1Local` without a guard. -/
def CosmosClient.GenerateTx (sdk : Sdk) (src : RandSource) (c : CosmosClient) : Run :=
  let txBuilder := c.clientCtx.TxConfig.NewTxBuilder
  let t1 := [Event.keyLookup "user1"]
  match c.clientCtx.Keyring.Key "user1" with
  | .error err => ⟨.error (Errorf_w "failed to get user1 key: " err), t1⟩
  | .ok r1 =>
  let t2 := t1 ++ [Event.keyLookup "user2"]
  match c.clientCtx.Keyring.Key "user2" with
  | .error err => ⟨.error (Errorf_w "failed to get user2 key: " err), t2⟩
  | .ok r2 =>
  match r1.GetAddress with
  | .error err => ⟨.error (Errorf_w "failed to get address from record 1: " err), t2⟩
  | .ok addr1 =>
  match r2.GetAddress with
  | .error err => ⟨.error (Errorf_w "failed to get address from record 2: " err), t2⟩
  | .ok addr2 =>
  match NewInt64Coin c.params.Denom c.params.Amount with
  | .error msg => ⟨.panicked msg, t2⟩
  | .ok coin =>
  match NewCoins [coin] with
  | .error msg => ⟨.panicked msg, t2⟩
  | .ok amount =>
  match NewMsgSend addr1 addr2 amount with
  | none => ⟨.error (Errorf "failed to create message"), t2⟩
  | some msg1 =>
  let t3 := t2 ++ [Event.setMsgs [msg1]]
  match txBuilder.SetMsgs c.clientCtx.TxConfig [msg1] with
  | .error err => ⟨.error (Errorf_w "failed to set message: " err), t3⟩
  | .ok txBuilder =>
  let txBuilder := txBuilder.SetGasLimit c.params.GasLimit
  let t4 := t3 ++ [Event.setGasLimit c.params.GasLimit]
  match NewInt64Coin c.params.Denom c.params.Fee with
  | .error msg => ⟨.panicked msg, t4⟩
  | .ok feeCoin =>
  match NewCoins [feeCoin] with
  | .error msg => ⟨.panicked msg, t4⟩
  | .ok fee =>
  let txBuilder := txBuilder.SetFeeAmount fee
  let t4 := t4 ++ [Event.setFeeAmount fee]
  match randomString 10 src with
  | none => ⟨.panicked "runtime error: index out of range", t4⟩
  | some (memo, _) =>
  let txBuilder := txBuilder.SetMemo memo
  let t5 := t4 ++ [Event.setMemo memo]
  match sdk.APISignModeToInternal c.clientCtx.TxConfig.DefaultMode with
  | .error err => ⟨.error (Errorf_w "failed to get default sign mode: " err), t5⟩
  | .ok defaultSignMode =>
  match r1.GetPubKey with
  | .error err => ⟨.error (Errorf_w "failed to get public key from record 1: " err), t5⟩
  | .ok r1Pub =>
  let t6 := t5 ++ [Event.accountLookup addr1]
  match c.clientCtx.AccountRetriever.GetAccount addr1 with
  | .error err => ⟨.error (Errorf_w "failed to get account number: " err), t6⟩
  | .ok acc1 =>
  let sigV2 : SignatureV2 :=
    { PubKey := r1Pub
      Data := { SignMode := defaultSignMode, Signature := [] }
      Sequence := acc1.GetSequence }
  let t7 := t6 ++ [Event.setSignatures [sigV2]]
  match txBuilder.SetSignatures c.clientCtx.TxConfig [sigV2] with
  | .error err => ⟨.error (Errorf_w "failed to set signature: " err), t7⟩
  | .ok txBuilder =>
  match r1.GetLocal with
  | none => ⟨.panicked "runtime error: invalid memory address or nil pointer dereference", t7⟩
  | some r1Local =>
  match r1Local.PrivKey with
  | none => ⟨.error (Errorf "private key is nil"), t7⟩
  | some r1PrivAny =>
  match r1PrivAny.GetCachedValue with
  | .other => ⟨.error (Errorf "failed to cast private key from record 1"), t7⟩
  | .privKey r1Priv =>
  let signerData : SignerData :=
    { ChainID := c.clientCtx.ChainID
      AccountNumber := acc1.GetAccountNumber
      Sequence := acc1.GetSequence
      PubKey := r1Pub }
  let t8 := t7 ++ [Event.sign defaultSignMode signerData txBuilder r1Priv acc1.GetSequence]
  match sdk.SignWithPrivKey defaultSignMode signerData txBuilder r1Priv c.clientCtx.TxConfig
      acc1.GetSequence with
  | .error err => ⟨.error (Errorf_w "failed to sign with private key: " err), t8⟩
  | .ok sigV2 =>
  let t9 := t8 ++ [Event.setSignatures [sigV2]]
  match txBuilder.SetSignatures c.clientCtx.TxConfig [sigV2] with
  | .error err => ⟨.error (Errorf_w "failed to set signature: " err), t9⟩
  | .ok txBuilder =>
  let t10 := t9 ++ [Event.encode txBuilder.GetTx]
  match c.clientCtx.TxConfig.TxEncoder txBuilder.GetTx with
  | .error err => ⟨.error err, t10⟩
  | .ok bz => ⟨.bytes bz, t10⟩

/-! ## Vocabulary of the statements -/

/-- The memo of a run of `GenerateTx` on the generator state `src`: the string that
`randomString(10)` returns there. -/
def memoOf (src : RandSource) : String :=
  match randomString 10 src with
  | some (memo, _) => memo
  | none => ""

/-- The generator state that produces the indices `idx`, in order. -/
def indexStream {n : Nat} (idx : Fin n → Fin 62) : RandSource :=
  fun i => if h : i < n then (idx ⟨i, h⟩).val else 0

/-- The string `randomString(n)` builds when the generator produces the indices
`idx`. -/
def memoOfIndices {n : Nat} (idx : Fin n → Fin 62) : String :=
  match randomString n (indexStream idx) with
  | some (s, _) => s
  | none => ""

/-- The calls of the signing phases: setting signatures, signing, encoding. -/
def Event.isSigning : Event → Bool
  | .setSignatures _ => true
  | .sign _ _ _ _ _ => true
  | .encode _ => true
  | _ => false

/-- The configuration the specification calls structurally acceptable: `Fee >= 0`,
`Amount > 0`, `Denom` non-empty, `GasLimit >= 0`. -/
def structurallyAcceptable (p : Params) : Prop :=
  0 ≤ p.Fee ∧ 0 < p.Amount ∧ p.Denom ≠ "" ∧ 0 ≤ p.GasLimit

/-- The contexts under which `GenerateTx` reports a failed step. -/
def stepContexts : List String :=
  [ "failed to get user1 key: ", "failed to get user2 key: ",
    "failed to get address from record 1: ", "failed to get address from record 2: ",
    "failed to create message", "failed to set message: ",
    "failed to get default sign mode: ", "failed to get public key from record 1: ",
    "failed to get account number: ", "failed to set signature: ", "private key is nil",
    "failed to cast private key from record 1", "failed to sign with private key: " ]

/-- An error that carries the context of a step of `GenerateTx`: built by
`fmt.Errorf` from one of the step contexts, alone or around a wrapped error. -/
def carriesStepContext (e : GoError) : Prop :=
  ∃ ctx ∈ stepContexts, e = Errorf ctx ∨ ∃ err, e = Errorf_w ctx err

/-! ## A concrete world

The scenario of the specification: `user1` (account 7, sequence 3) sends 1000 `token`
to `user2` with fee 100 `token` and gas limit 200000. -/

/-- The signing functions: the internal sign mode has the number of the API's, and
`SignWithPrivKey` returns a signature that carries the mode and the sequence it was
given. -/
def exampleSdk : Sdk where
  APISignModeToInternal := fun m => .ok { val := m.val }
  SignWithPrivKey := fun mode data b priv _ accSeq =>
    .ok { PubKey := { bytes := priv.bytes.map (· + 1) }
          Data := { SignMode := mode
                    Signature := priv.bytes ++ [data.AccountNumber, data.Sequence, b.gasLimit] }
          Sequence := accSeq }

/-- The key record of `user1`, a local key. -/
def user1Record : Record where
  GetAddress := .ok { bytes := [1] }
  GetPubKey := .ok { bytes := [11] }
  GetLocal := some { PrivKey := some { GetCachedValue := .privKey { bytes := [10] } } }

/-- The key record of `user2`, a local key. -/
def user2Record : Record where
  GetAddress := .ok { bytes := [2] }
  GetPubKey := .ok { bytes := [21] }
  GetLocal := some { PrivKey := some { GetCachedValue := .privKey { bytes := [20] } } }

/-- The key record of `user1` when the key lives on a ledger device: the record has
no local item. -/
def ledgerRecord : Record where
  GetAddress := .ok { bytes := [1] }
  GetPubKey := .ok { bytes := [11] }
  GetLocal := none

/-- The key store holding `user1` and `user2`. -/
def exampleKeyring : Keyring where
  Key := fun uid =>
    if uid = "user1" then .ok user1Record
    else if uid = "user2" then .ok user2Record
    else .error (.errorString "key not found")

/-- The key store holding `user2` only. -/
def user2OnlyKeyring : Keyring where
  Key := fun uid =>
    if uid = "user2" then .ok user2Record
    else .error (.errorString "key not found")

/-- The key store in which `user1` is a ledger key. -/
def ledgerKeyring : Keyring where
  Key := fun uid =>
    if uid = "user1" then .ok ledgerRecord
    else if uid = "user2" then .ok user2Record
    else .error (.errorString "key not found")

/-- The transaction configuration: builders start empty and accept every argument,
the default sign mode is 1, the encoder lists the number of messages, the gas limit,
the number of coins of each message, the memo and the signature bytes. -/
def exampleTxConfig : TxConfig where
  NewTxBuilder := { msgs := [], gasLimit := 0, feeAmount := [], memo := "", signatures := [] }
  DefaultMode := { val := 1 }
  TxEncoder := fun tx =>
    .ok (tx.msgs.length :: tx.gasLimit :: (tx.msgs.map (fun m => m.Amount.length) ++
      tx.memo.data.map Char.toNat ++ (tx.signatures.map (fun s => s.Data.Signature)).flatten))
  SetMsgsErr := fun _ => none
  SetSignaturesErr := fun _ => none

/-- The transaction configuration with an encoder that fails. -/
def failingEncoderTxConfig : TxConfig :=
  { exampleTxConfig with TxEncoder := fun _ => .error (.errorString "marshal failed") }

/-- The account state of `user1`: account number 7, sequence 3. -/
def exampleAccountRetriever : AccountRetriever where
  GetAccount := fun addr =>
    if addr = { bytes := [1] } then .ok { GetAccountNumber := 7, GetSequence := 3 }
    else .error (.errorString "account not found")

/-- The account-state provider that is unavailable. -/
def failingAccountRetriever : AccountRetriever where
  GetAccount := fun _ => .error (.errorString "account not found")

/-- The context of the scenario. -/
def exampleContext : Context where
  TxConfig := exampleTxConfig
  Keyring := exampleKeyring
  AccountRetriever := exampleAccountRetriever
  ChainID := "manifest-ledger-beta"

/-- The parameters of the scenario. -/
def exampleParams : Params where
  Fee := 100
  Amount := 1000
  Denom := "token"
  GasLimit := 200000

/-- The client of the scenario. -/
def exampleClient : CosmosClient where
  clientCtx := exampleContext
  params := exampleParams

/-- The client of the scenario with `Amount = 0`. -/
def zeroAmountClient : CosmosClient where
  clientCtx := exampleContext
  params := { exampleParams with Amount := 0 }

/-- The client of the scenario with `Amount = -1`. -/
def negativeAmountClient : CosmosClient where
  clientCtx := exampleContext
  params := { exampleParams with Amount := -1 }

/-- The client of the scenario with an empty `Denom`. -/
def emptyDenomClient : CosmosClient where
  clientCtx := exampleContext
  params := { exampleParams with Denom := "" }

/-- The client of the scenario with the one-letter `Denom` `x`. -/
def shortDenomClient : CosmosClient where
  clientCtx := exampleContext
  params := { exampleParams with Denom := "x" }

/-- The client of the scenario with `Fee = 0`. -/
def zeroFeeClient : CosmosClient where
  clientCtx := exampleContext
  params := { exampleParams with Fee := 0 }

/-- The client of the scenario whose sender key is a ledger key. -/
def ledgerClient : CosmosClient where
  clientCtx := { exampleContext with Keyring := ledgerKeyring }
  params := exampleParams

/-- The client of the scenario with the failing encoder. -/
def failingEncoderClient : CosmosClient where
  clientCtx := { exampleContext with TxConfig := failingEncoderTxConfig }
  params := exampleParams

/-- The client of the scenario whose key store does not hold `user1`. -/
def missingKeyClient : CosmosClient where
  clientCtx := { exampleContext with Keyring := user2OnlyKeyring }
  params := exampleParams

/-- The client of the scenario whose account-state provider is unavailable. -/
def missingAccountClient : CosmosClient where
  clientCtx := { exampleContext with AccountRetriever := failingAccountRetriever }
  params := exampleParams

/-- A factory whose parameters are not structurally acceptable: `Amount = 0` and an
empty `Denom`. -/
def unacceptableFactory : CosmosClientFactory :=
  NewCosmosClientFactory exampleContext { Fee := -1, Amount := 0, Denom := "", GasLimit := 0 }

/-- A generator state. -/
def exampleSrc : RandSource := fun i => 7 * i + 3

/-! ## Theorems -/

/-! ### The memo generator -/

theorem charset_length : charset.length = 62 := by decide

theorem charset_nodup : charset.data.Nodup := by decide

theorem index_charset (j : Nat) (h : j < 62) :
    index charset j = some (charset.data.getD j 'a') := by
  have hl : j < charset.data.length := by
    have := charset_length
    simp only [String.length] at this
    omega
  simp [index, List.getD, List.get?_eq_get hl, List.getElem?_eq_getElem hl]

theorem fill_eq (k : Nat) (src : RandSource) :
    randomString.fill k src =
      some (List.ofFn (fun i : Fin k => charset.data.getD (src i.val % 62) 'a'),
        fun i => src (i + k)) := by
  induction k generalizing src with
  | zero => simp [randomString.fill]
  | succ k ih =>
    have hj : src 0 % 62 < 62 := Nat.mod_lt _ (by decide)
    simp only [randomString.fill, Intn, charset_length, ih]
    simp [index_charset _ hj, List.ofFn_succ, Nat.add_comm, Nat.add_left_comm, Nat.add_assoc]

theorem randomString_eq (n : Nat) (src : RandSource) :
    randomString (n : Int) src =
      some (String.mk (List.ofFn (fun i : Fin n => charset.data.getD (src i.val % 62) 'a')),
        fun i => src (i + n)) := by
  simp [randomString, fill_eq]

theorem randomString_ten (src : RandSource) :
    randomString 10 src = some (memoOf src, fun i => src (i + 10)) := by
  have h := randomString_eq 10 src
  simp only [Nat.cast_ofNat] at h
  simp only [memoOf, h]

theorem getD_mem_charset (j : Nat) (h : j < 62) : charset.data.getD j 'a' ∈ charset.data := by
  have hl : j < charset.data.length := by
    have := charset_length
    simp only [String.length] at this
    omega
  rw [List.getD_eq_getElem _ _ hl]
  exact List.getElem_mem hl

theorem getD_charset_inj (i j : Nat) (hi : i < 62) (hj : j < 62)
    (h : charset.data.getD i 'a' = charset.data.getD j 'a') : i = j := by
  have hl : charset.data.length = 62 := charset_length
  have hi1 : i < charset.data.length := by omega
  have hj1 : j < charset.data.length := by omega
  rw [List.getD_eq_getElem _ _ hi1, List.getD_eq_getElem _ _ hj1] at h
  exact (List.Nodup.getElem_inj_iff charset_nodup).mp h

theorem memoOfIndices_eq {n : Nat} (idx : Fin n → Fin 62) :
    memoOfIndices idx =
      String.mk (List.ofFn (fun i : Fin n => charset.data.getD (idx i).val 'a')) := by
  have h : ∀ i : Fin n, indexStream idx i.val % 62 = (idx i).val := by
    intro i
    simp [indexStream, i.isLt, Nat.mod_eq_of_lt (idx i).isLt]
  simp [memoOfIndices, randomString_eq, h]

theorem memoOfIndices_injective (n : Nat) :
    Function.Injective (memoOfIndices : (Fin n → Fin 62) → String) := by
  intro f g hfg
  rw [memoOfIndices_eq, memoOfIndices_eq] at hfg
  have h0 : List.ofFn (fun i : Fin n => charset.data.getD (f i).val 'a') =
      List.ofFn (fun i : Fin n => charset.data.getD (g i).val 'a') := String.ext_iff.mp hfg
  have h1 := List.ofFn_injective h0
  funext i
  apply Fin.ext
  exact getD_charset_inj _ _ (f i).isLt (g i).isLt (congrFun h1 i)

theorem randomString_eq_memoOfIndices (n : Nat) (src : RandSource) :
    randomString (n : Int) src =
      some (memoOfIndices (fun i : Fin n => (⟨src i.val % 62, Nat.mod_lt _ (by decide)⟩ : Fin 62)),
        fun i => src (i + n)) := by
  rw [memoOfIndices_eq]
  exact randomString_eq n src

/-! ### The coin constructors -/

theorem ValidateDenom_empty : ValidateDenom "" = false := by decide

theorem NewInt64Coin_of_valid (denom : String) (amount : Int)
    (hd : ValidateDenom denom = true) (ha : 0 ≤ amount) :
    NewInt64Coin denom amount = .ok { Denom := denom, Amount := amount } := by
  simp [NewInt64Coin, hd, not_lt.mpr ha]

theorem NewInt64Coin_eq_ok (denom : String) (amount : Int) (coin : Coin)
    (h : NewInt64Coin denom amount = .ok coin) :
    ValidateDenom denom = true ∧ 0 ≤ amount ∧ coin = { Denom := denom, Amount := amount } := by
  unfold NewInt64Coin at h
  split at h
  · cases h
  · split at h
    · cases h
    · rename_i hd ha
      refine ⟨by simpa using hd, not_lt.mp ha, ?_⟩
      cases h
      rfl

theorem NewInt64Coin_panics (denom : String) (amount : Int)
    (h : amount < 0 ∨ ValidateDenom denom = false) :
    ∃ msg, NewInt64Coin denom amount = .error msg := by
  unfold NewInt64Coin
  split
  · exact ⟨_, rfl⟩
  · split
    · exact ⟨_, rfl⟩
    · rename_i hd ha
      rcases h with h | h
      · exact absurd h ha
      · exact absurd h hd

theorem NewCoins_single (denom : String) (amount : Int)
    (hd : ValidateDenom denom = true) (ha : 0 ≤ amount) :
    NewCoins [{ Denom := denom, Amount := amount }] =
      .ok (if amount = 0 then [] else [{ Denom := denom, Amount := amount }]) := by
  by_cases h0 : amount = 0
  · subst h0
    simp [NewCoins, removeZeroCoins, Coins.Sort, Coins.Validate]
  · have hpos : 0 < amount := lt_of_le_of_ne ha (Ne.symm h0)
    simp [NewCoins, removeZeroCoins, Coins.Sort, Coins.Validate, h0, hd, hpos]

theorem NewCoins_of_NewInt64Coin (denom : String) (amount : Int) (coin : Coin)
    (h : NewInt64Coin denom amount = .ok coin) :
    NewCoins [coin] = .ok (if amount = 0 then [] else [{ Denom := denom, Amount := amount }]) := by
  obtain ⟨hd, ha, rfl⟩ := NewInt64Coin_eq_ok denom amount coin h
  exact NewCoins_single denom amount hd ha

theorem NewMsgSend_ne_none (fromAddr toAddr : AccAddress) (amount : Coins) :
    NewMsgSend fromAddr toAddr amount ≠ none := by
  simp [NewMsgSend]

/-! ### The builder -/

@[simp]
theorem SetMsgs_eq_ok (cfg : TxConfig) (b b1 : TxBuilder) (msgs : List MsgSend) :
    b.SetMsgs cfg msgs = .ok b1 ↔ cfg.SetMsgsErr msgs = none ∧ b1 = { b with msgs := msgs } := by
  cases h : cfg.SetMsgsErr msgs <;> simp [TxBuilder.SetMsgs, h, eq_comm]

@[simp]
theorem SetMsgs_eq_error (cfg : TxConfig) (b : TxBuilder) (msgs : List MsgSend) (e : GoError) :
    b.SetMsgs cfg msgs = .error e ↔ cfg.SetMsgsErr msgs = some e := by
  cases h : cfg.SetMsgsErr msgs <;> simp [TxBuilder.SetMsgs, h, eq_comm]

@[simp]
theorem SetSignatures_eq_ok (cfg : TxConfig) (b b1 : TxBuilder) (sigs : List SignatureV2) :
    b.SetSignatures cfg sigs = .ok b1 ↔
      cfg.SetSignaturesErr sigs = none ∧ b1 = { b with signatures := sigs } := by
  cases h : cfg.SetSignaturesErr sigs <;> simp [TxBuilder.SetSignatures, h, eq_comm]

@[simp]
theorem SetSignatures_eq_error (cfg : TxConfig) (b : TxBuilder) (sigs : List SignatureV2)
    (e : GoError) :
    b.SetSignatures cfg sigs = .error e ↔ cfg.SetSignaturesErr sigs = some e := by
  cases h : cfg.SetSignaturesErr sigs <;> simp [TxBuilder.SetSignatures, h, eq_comm]

/-! ### The calls of a run -/

theorem setMemo_mem_trace (sdk : Sdk) (src : RandSource) (c : CosmosClient) (memo : String)
    (h : Event.setMemo memo ∈ (c.GenerateTx sdk src).trace) :
    ∃ src1, randomString 10 src = some (memo, src1) := by
  unfold CosmosClient.GenerateTx at h
  dsimp only at h
  generalize randomString 10 src = r at h ⊢
  repeat' split at h
  all_goals simp_all

theorem encode_mem_trace_memo (sdk : Sdk) (src : RandSource) (c : CosmosClient) (tx : TxBuilder)
    (h : Event.encode tx ∈ (c.GenerateTx sdk src).trace) :
    Event.setMemo tx.memo ∈ (c.GenerateTx sdk src).trace := by
  unfold CosmosClient.GenerateTx at h ⊢
  dsimp only at h ⊢
  generalize randomString 10 src = r at h ⊢
  repeat' split at h
  all_goals simp_all [TxBuilder.GetTx, TxBuilder.SetMemo, TxBuilder.SetGasLimit,
    TxBuilder.SetFeeAmount]

theorem setFeeAmount_mem_trace (sdk : Sdk) (src : RandSource) (c : CosmosClient)
    (fee : Coins) (h : Event.setFeeAmount fee ∈ (c.GenerateTx sdk src).trace) :
    Event.setMemo (memoOf src) ∈ (c.GenerateTx sdk src).trace := by
  unfold CosmosClient.GenerateTx at h ⊢
  simp only [randomString_ten] at h ⊢
  repeat' split at h
  all_goals simp_all

theorem setMemo_of_message_set (sdk : Sdk) (src : RandSource) (c : CosmosClient)
    (r1 r2 : Record) (addr1 addr2 : AccAddress)
    (hFee : 0 ≤ c.params.Fee) (hAmount : 0 ≤ c.params.Amount)
    (hDenom : ValidateDenom c.params.Denom = true)
    (hk1 : c.clientCtx.Keyring.Key "user1" = .ok r1)
    (hk2 : c.clientCtx.Keyring.Key "user2" = .ok r2)
    (ha1 : r1.GetAddress = .ok addr1)
    (ha2 : r2.GetAddress = .ok addr2)
    (hset : ∀ msgs, c.clientCtx.TxConfig.SetMsgsErr msgs = none) :
    Event.setMemo (memoOf src) ∈ (c.GenerateTx sdk src).trace := by
  have hcoin := NewInt64Coin_of_valid _ _ hDenom hAmount
  have hcoins := NewCoins_single _ _ hDenom hAmount
  have hfeeCoin := NewInt64Coin_of_valid _ _ hDenom hFee
  have hfee := NewCoins_single _ _ hDenom hFee
  unfold CosmosClient.GenerateTx
  simp only [randomString_ten, hk1, hk2, ha1, ha2, hcoin, hcoins, NewMsgSend, hfeeCoin, hfee,
    TxBuilder.SetMsgs, hset]
  repeat' split
  all_goals simp_all

theorem GenerateTx_result_of_encode (sdk : Sdk) (src : RandSource) (c : CosmosClient)
    (tx : TxBuilder) (h : Event.encode tx ∈ (c.GenerateTx sdk src).trace) :
    (c.GenerateTx sdk src).result =
      (match c.clientCtx.TxConfig.TxEncoder tx with
        | .ok bz => Outcome.bytes bz
        | .error err => Outcome.error err) := by
  unfold CosmosClient.GenerateTx at h ⊢
  dsimp only at h ⊢
  generalize randomString 10 src = r at h ⊢
  repeat' split at h
  all_goals simp_all [TxBuilder.GetTx]

theorem GenerateTx_bytes_encoded (sdk : Sdk) (src : RandSource) (c : CosmosClient)
    (bz : Bytes) (h : (c.GenerateTx sdk src).result = .bytes bz) :
    ∃ tx, Event.encode tx ∈ (c.GenerateTx sdk src).trace ∧
      c.clientCtx.TxConfig.TxEncoder tx = .ok bz := by
  unfold CosmosClient.GenerateTx at h ⊢
  dsimp only at h ⊢
  generalize randomString 10 src = r at h ⊢
  repeat' split at h
  all_goals simp_all [TxBuilder.GetTx]

theorem GenerateTx_signing_calls (sdk : Sdk) (src : RandSource) (c : CosmosClient) :
    (c.GenerateTx sdk src).trace.filter Event.isSigning = [] ∨
    ∃ r1 addr1 r1Pub mode acc1,
      c.clientCtx.Keyring.Key "user1" = .ok r1 ∧ r1.GetAddress = .ok addr1 ∧
      r1.GetPubKey = .ok r1Pub ∧
      sdk.APISignModeToInternal c.clientCtx.TxConfig.DefaultMode = .ok mode ∧
      c.clientCtx.AccountRetriever.GetAccount addr1 = .ok acc1 ∧
      ((c.GenerateTx sdk src).trace.filter Event.isSigning =
          [.setSignatures [⟨r1Pub, ⟨mode, []⟩, acc1.GetSequence⟩]] ∨
       ∃ b r1Priv,
        b.signatures = [⟨r1Pub, ⟨mode, []⟩, acc1.GetSequence⟩] ∧
        ((c.GenerateTx sdk src).trace.filter Event.isSigning =
          [.setSignatures [⟨r1Pub, ⟨mode, []⟩, acc1.GetSequence⟩],
           .sign mode ⟨c.clientCtx.ChainID, acc1.GetAccountNumber, acc1.GetSequence, r1Pub⟩ b
             r1Priv acc1.GetSequence] ∨
         ∃ sig,
          sdk.SignWithPrivKey mode
            ⟨c.clientCtx.ChainID, acc1.GetAccountNumber, acc1.GetSequence, r1Pub⟩ b r1Priv
            c.clientCtx.TxConfig acc1.GetSequence = .ok sig ∧
          ((c.GenerateTx sdk src).trace.filter Event.isSigning =
            [.setSignatures [⟨r1Pub, ⟨mode, []⟩, acc1.GetSequence⟩],
             .sign mode ⟨c.clientCtx.ChainID, acc1.GetAccountNumber, acc1.GetSequence, r1Pub⟩ b
               r1Priv acc1.GetSequence,
             .setSignatures [sig]] ∨
           (c.GenerateTx sdk src).trace.filter Event.isSigning =
            [.setSignatures [⟨r1Pub, ⟨mode, []⟩, acc1.GetSequence⟩],
             .sign mode ⟨c.clientCtx.ChainID, acc1.GetAccountNumber, acc1.GetSequence, r1Pub⟩ b
               r1Priv acc1.GetSequence,
             .setSignatures [sig],
             .encode { b with signatures := [sig] }]))) := by
  unfold CosmosClient.GenerateTx
  dsimp only
  generalize randomString 10 src = r
  repeat' split
  all_goals first
    | (left; simp [Event.isSigning, List.filter]; done)
    | (right
       simp only [SetSignatures_eq_ok, SetMsgs_eq_ok] at *
       casesm* _ ∧ _
       subst_vars
       refine ⟨?_, ?_, ?_, ?_, ?_, ?_, ?_, ?_, ?_, ?_, ?_⟩
       rotate_left 5
       assumption
       assumption
       assumption
       assumption
       assumption
       first
         | (left; simp [Event.isSigning, List.filter]; done)
         | (right
            refine ⟨?_, ?_, ?_, ?_⟩
            rotate_left 3
            first
              | (left; simp only [List.filter, Event.isSigning, List.cons_append, List.nil_append,
                    List.singleton_append, List.append_assoc]; exact rfl)
              | (right
                 refine ⟨?_, ?_, ?_⟩
                 rotate_left 2
                 first
                   | (left; simp only [List.filter, Event.isSigning, List.cons_append, List.nil_append,
                    List.singleton_append, List.append_assoc]; exact rfl)
                   | (right; simp only [List.filter, Event.isSigning, List.cons_append, List.nil_append,
                    List.singleton_append, List.append_assoc]; exact rfl))
            exact rfl
            all_goals assumption))

/-! ### Claims about the memo -/

/-- C6. For every length `n >= 0` and every generator state, `randomString(n)` returns
a string of exactly `n` characters, each a member of `charset`; the index `rand.Intn`
yields is within the bounds of `charset`, so the index expression does not panic. The
memo `GenerateTx` attaches is `randomString(10)`: every memo it sets is that string, ten
characters of `charset`; a run that gets as far as setting the fee sets that memo next;
a run in which the keys and addresses are resolved, the coins are valid and the builder
accepts the message sets that memo; and a run that returns bytes has set that memo and
returns the encoding of a transaction that carries it. -/
theorem randomString_length_and_alphabet (n : Nat) (src : RandSource) :
    (∃ s src1, randomString (n : Int) src = some (s, src1) ∧ s.length = n ∧
      ∀ ch ∈ s.data, ch ∈ charset.data) ∧
    (∀ s : RandSource, ∃ j s1 ch, Intn s charset.length = some (j, s1) ∧
      j < charset.length ∧ index charset j = some ch) ∧
    (∀ (sdk : Sdk) (c : CosmosClient) (memo : String),
      Event.setMemo memo ∈ (c.GenerateTx sdk src).trace →
        (∃ src1, randomString 10 src = some (memo, src1)) ∧ memo.length = 10 ∧
          ∀ ch ∈ memo.data, ch ∈ charset.data) ∧
    (∀ (sdk : Sdk) (c : CosmosClient) (tx : TxBuilder),
      Event.encode tx ∈ (c.GenerateTx sdk src).trace →
        Event.setMemo tx.memo ∈ (c.GenerateTx sdk src).trace) ∧
    (∀ (sdk : Sdk) (c : CosmosClient) (fee : Coins),
      Event.setFeeAmount fee ∈ (c.GenerateTx sdk src).trace →
        ∃ memo src1, randomString 10 src = some (memo, src1) ∧
          Event.setMemo memo ∈ (c.GenerateTx sdk src).trace) ∧
    (∀ (sdk : Sdk) (c : CosmosClient) (r1 r2 : Record) (addr1 addr2 : AccAddress),
      0 ≤ c.params.Fee → 0 ≤ c.params.Amount → ValidateDenom c.params.Denom = true →
      c.clientCtx.Keyring.Key "user1" = .ok r1 → c.clientCtx.Keyring.Key "user2" = .ok r2 →
      r1.GetAddress = .ok addr1 → r2.GetAddress = .ok addr2 →
      (∀ msgs, c.clientCtx.TxConfig.SetMsgsErr msgs = none) →
        ∃ memo src1, randomString 10 src = some (memo, src1) ∧
          Event.setMemo memo ∈ (c.GenerateTx sdk src).trace) ∧
    (∀ (sdk : Sdk) (c : CosmosClient) (bz : Bytes),
      (c.GenerateTx sdk src).result = .bytes bz →
        ∃ tx src1, c.clientCtx.TxConfig.TxEncoder tx = .ok bz ∧
          Event.encode tx ∈ (c.GenerateTx sdk src).trace ∧
          Event.setMemo tx.memo ∈ (c.GenerateTx sdk src).trace ∧
          randomString 10 src = some (tx.memo, src1) ∧ tx.memo.length = 10 ∧
          ∀ ch ∈ tx.memo.data, ch ∈ charset.data) := by
  have hmem : ∀ (k : Nat) (s : RandSource),
      ∀ ch ∈ List.ofFn (fun i : Fin k => charset.data.getD (s i.val % 62) 'a'),
        ch ∈ charset.data := by
    intro k s ch hch
    rw [List.mem_ofFn] at hch
    obtain ⟨i, rfl⟩ := hch
    exact getD_mem_charset _ (Nat.mod_lt _ (by decide))
  have hlen : ∀ (k : Nat) (s : RandSource),
      (String.mk (List.ofFn (fun i : Fin k => charset.data.getD (s i.val % 62) 'a'))).length
        = k := by
    intro k s
    show (List.ofFn _).length = k
    exact List.length_ofFn _
  have hset : ∀ (sdk : Sdk) (c : CosmosClient) (memo : String),
      Event.setMemo memo ∈ (c.GenerateTx sdk src).trace →
        (∃ src1, randomString 10 src = some (memo, src1)) ∧ memo.length = 10 ∧
          ∀ ch ∈ memo.data, ch ∈ charset.data := by
    intro sdk c memo h
    obtain ⟨src1, h1⟩ := setMemo_mem_trace sdk src c memo h
    have h10 := randomString_eq 10 src
    rw [Nat.cast_ofNat, h1] at h10
    have hm : memo = _ := congrArg Prod.fst (Option.some.inj h10)
    refine ⟨⟨src1, h1⟩, ?_, ?_⟩
    · rw [hm]; exact hlen 10 src
    · rw [hm]; exact hmem 10 src
  refine ⟨⟨_, _, randomString_eq n src, hlen n src, hmem n src⟩, ?_, hset, ?_, ?_, ?_, ?_⟩
  · intro s
    have hj : s 0 % 62 < 62 := Nat.mod_lt _ (by decide)
    refine ⟨s 0 % 62, fun i => s (i + 1), _, ?_, ?_, index_charset _ hj⟩
    · simp [Intn, charset_length]
    · simpa [charset_length] using hj
  · intro sdk c tx h
    exact encode_mem_trace_memo sdk src c tx h
  · intro sdk c fee h
    exact ⟨_, _, randomString_ten src, setFeeAmount_mem_trace sdk src c fee h⟩
  · intro sdk c r1 r2 addr1 addr2 hFee hAmount hDenom hk1 hk2 ha1 ha2 hmsgs
    exact ⟨_, _, randomString_ten src,
      setMemo_of_message_set sdk src c r1 r2 addr1 addr2 hFee hAmount hDenom hk1 hk2 ha1 ha2
        hmsgs⟩
  · intro sdk c bz h
    obtain ⟨tx, htx, henc⟩ := GenerateTx_bytes_encoded sdk src c bz h
    have hm := encode_mem_trace_memo sdk src c tx htx
    obtain ⟨⟨src1, h1⟩, h2, h3⟩ := hset sdk c tx.memo hm
    exact ⟨tx, src1, henc, htx, hm, h1, h2, h3⟩

/-- The scenario of the specification: the run returns bytes, so it has set the memo
that `randomString(10)` builds from the generator state and has encoded a transaction
that carries it. -/
theorem randomString_length_and_alphabet_witness :
    ∃ tx src1,
      exampleClient.clientCtx.TxConfig.TxEncoder tx =
        .ok [1, 200000, 1, 100, 107, 114, 121, 70, 77, 84, 48, 55, 101, 10, 7, 3, 200000] ∧
      Event.encode tx ∈ (exampleClient.GenerateTx exampleSdk exampleSrc).trace ∧
      Event.setMemo tx.memo ∈ (exampleClient.GenerateTx exampleSdk exampleSrc).trace ∧
      randomString 10 exampleSrc = some (tx.memo, src1) ∧ tx.memo.length = 10 ∧
      ∀ ch ∈ tx.memo.data, ch ∈ charset.data :=
  (randomString_length_and_alphabet 10 exampleSrc).2.2.2.2.2.2 exampleSdk exampleClient
    [1, 200000, 1, 100, 107, 114, 121, 70, 77, 84, 48, 55, 101, 10, 7, 3, 200000] (by decide)

/-- C7. The alphabet `charset` has exactly 62 pairwise distinct symbols: the 26
lowercase letters, the 26 uppercase letters and the 10 digits. The string `randomString`
builds is a function of the indices drawn, that function is injective on the sequences
of `n` indices of `[0, 62)`, so there are exactly `62 ^ 10` memos of length 10, each
built from exactly one index sequence, and the pairs of index sequences that give equal
memos are one in `62 ^ 10` of all pairs. -/
theorem charset_memo_count :
    charset.data.length = 62 ∧ charset.data.Nodup ∧
    charset.data =
      (List.range 26).map (fun i => Char.ofNat (97 + i)) ++
      (List.range 26).map (fun i => Char.ofNat (65 + i)) ++
      (List.range 10).map (fun i => Char.ofNat (48 + i)) ∧
    (∀ (n : Nat) (src : RandSource), ∃ src1,
      randomString (n : Int) src =
        some (memoOfIndices
          (fun i : Fin n => (⟨src i.val % 62, Nat.mod_lt _ (by decide)⟩ : Fin 62)), src1)) ∧
    (∀ n : Nat, Function.Injective (memoOfIndices : (Fin n → Fin 62) → String)) ∧
    (Finset.univ.image (memoOfIndices : (Fin 10 → Fin 62) → String)).card = 62 ^ 10 ∧
    (∀ src : RandSource, ∃! idx : Fin 10 → Fin 62, memoOfIndices idx = memoOf src) ∧
    (Finset.univ.filter (fun p : (Fin 10 → Fin 62) × (Fin 10 → Fin 62) =>
        memoOfIndices p.1 = memoOfIndices p.2)).card * 62 ^ 10 =
      Fintype.card ((Fin 10 → Fin 62) × (Fin 10 → Fin 62)) := by
  refine ⟨charset_length, charset_nodup, by decide, ?_, memoOfIndices_injective, ?_, ?_, ?_⟩
  · intro n src
    exact ⟨_, randomString_eq_memoOfIndices n src⟩
  · rw [Finset.card_image_of_injective _ (memoOfIndices_injective 10), Finset.card_univ,
      Fintype.card_fun, Fintype.card_fin, Fintype.card_fin]
  · intro src
    have h := randomString_eq_memoOfIndices 10 src
    rw [Nat.cast_ofNat, randomString_ten] at h
    have hm := congrArg Prod.fst (Option.some.inj h)
    refine ⟨_, hm.symm, ?_⟩
    intro idx hidx
    exact memoOfIndices_injective 10 (hidx.trans hm)
  · have hfilter : (Finset.univ.filter (fun p : (Fin 10 → Fin 62) × (Fin 10 → Fin 62) =>
        memoOfIndices p.1 = memoOfIndices p.2)) =
        (Finset.univ : Finset (Fin 10 → Fin 62)).diag := by
      ext p
      simp only [Finset.mem_filter, Finset.mem_univ, true_and, Finset.mem_diag]
      exact ⟨fun h => memoOfIndices_injective 10 h, fun h => by rw [h]⟩
    rw [hfilter, Finset.diag_card, Finset.card_univ, Fintype.card_prod, Fintype.card_fun,
      Fintype.card_fin, Fintype.card_fin]
/-! ### Claims about `GenerateTx` -/

/-- C1, as stated, fails: the parameters `Fee = 100`, `Amount = 1000`, `Denom = "x"`
satisfy `Fee >= 0`, `Amount > 0` and a non-empty `Denom`, the collaborators are those of
the scenario, in which every lookup, the signing and the encoding succeed, and
`GenerateTx` panics in `types.NewInt64Coin` instead of returning bytes. -/
theorem GenerateTx_short_denom_panics :
    0 ≤ shortDenomClient.params.Fee ∧ 0 < shortDenomClient.params.Amount ∧
    shortDenomClient.params.Denom ≠ "" ∧
    shortDenomClient.clientCtx = exampleClient.clientCtx ∧
    (exampleClient.GenerateTx exampleSdk exampleSrc).result =
      .bytes [1, 200000, 1, 100, 107, 114, 121, 70, 77, 84, 48, 55, 101, 10, 7, 3, 200000] ∧
    (shortDenomClient.GenerateTx exampleSdk exampleSrc).result =
      .panicked "invalid denom: x" ∧
    ¬ ∃ bz, (shortDenomClient.GenerateTx exampleSdk exampleSrc).result = .bytes bz := by
  have hp : (shortDenomClient.GenerateTx exampleSdk exampleSrc).result =
      .panicked "invalid denom: x" := by decide
  refine ⟨by decide, by decide, by decide, rfl, by decide, hp, ?_⟩
  rintro ⟨bz, hbz⟩
  rw [hp] at hbz
  cases hbz

/-- C1, amended. For every client whose params satisfy `Fee >= 0`, `Amount > 0` and a
`Denom` that is a valid denomination of the SDK, and for collaborators whose lookups,
signing and encoding succeed, `GenerateTx` returns the encoding of the transaction with
exactly one message, the transfer from the address of `user1` to the address of `user2`
of exactly `Amount` of `Denom`, with the fee `Fee` of `Denom`, which for `Fee = 0` is the
empty coin set, and the gas limit `GasLimit`; that transaction is the last thing the run
hands to a collaborator. -/
theorem GenerateTx_returns_encoded_transfer
    (sdk : Sdk) (src : RandSource) (c : CosmosClient)
    (r1 r2 : Record) (addr1 addr2 : AccAddress) (mode : SignMode)
    (r1Pub : PubKey) (acc1 : Account) (r1Local : RecordLocal) (r1PrivAny : AnyValue)
    (r1Priv : PrivKey) (sig : SignatureV2) (bz : Bytes)
    (hFee : 0 ≤ c.params.Fee) (hAmount : 0 < c.params.Amount)
    (hDenom : ValidateDenom c.params.Denom = true)
    (hk1 : c.clientCtx.Keyring.Key "user1" = .ok r1)
    (hk2 : c.clientCtx.Keyring.Key "user2" = .ok r2)
    (ha1 : r1.GetAddress = .ok addr1)
    (ha2 : r2.GetAddress = .ok addr2)
    (hset : c.clientCtx.TxConfig.SetMsgsErr
      [{ FromAddress := addr1, ToAddress := addr2,
         Amount := [{ Denom := c.params.Denom, Amount := c.params.Amount }] }] = none)
    (hmode : sdk.APISignModeToInternal c.clientCtx.TxConfig.DefaultMode = .ok mode)
    (hpub : r1.GetPubKey = .ok r1Pub)
    (hacc : c.clientCtx.AccountRetriever.GetAccount addr1 = .ok acc1)
    (hph : c.clientCtx.TxConfig.SetSignaturesErr
      [{ PubKey := r1Pub, Data := { SignMode := mode, Signature := [] },
         Sequence := acc1.GetSequence }] = none)
    (hloc : r1.GetLocal = some r1Local)
    (hpriv : r1Local.PrivKey = some r1PrivAny)
    (hcast : r1PrivAny.GetCachedValue = .privKey r1Priv)
    (hsign : sdk.SignWithPrivKey mode
      { ChainID := c.clientCtx.ChainID, AccountNumber := acc1.GetAccountNumber,
        Sequence := acc1.GetSequence, PubKey := r1Pub }
      { msgs := [{ FromAddress := addr1, ToAddress := addr2,
                   Amount := [{ Denom := c.params.Denom, Amount := c.params.Amount }] }],
        gasLimit := c.params.GasLimit,
        feeAmount := if c.params.Fee = 0 then []
          else [{ Denom := c.params.Denom, Amount := c.params.Fee }],
        memo := memoOf src,
        signatures := [{ PubKey := r1Pub, Data := { SignMode := mode, Signature := [] },
                         Sequence := acc1.GetSequence }] }
      r1Priv c.clientCtx.TxConfig acc1.GetSequence = .ok sig)
    (hsig : c.clientCtx.TxConfig.SetSignaturesErr [sig] = none)
    (henc : c.clientCtx.TxConfig.TxEncoder
      { msgs := [{ FromAddress := addr1, ToAddress := addr2,
                   Amount := [{ Denom := c.params.Denom, Amount := c.params.Amount }] }],
        gasLimit := c.params.GasLimit,
        feeAmount := if c.params.Fee = 0 then []
          else [{ Denom := c.params.Denom, Amount := c.params.Fee }],
        memo := memoOf src, signatures := [sig] } = .ok bz) :
    (c.GenerateTx sdk src).result = .bytes bz ∧
    (c.GenerateTx sdk src).trace.getLast? = some (Event.encode
      { msgs := [{ FromAddress := addr1, ToAddress := addr2,
                   Amount := [{ Denom := c.params.Denom, Amount := c.params.Amount }] }],
        gasLimit := c.params.GasLimit,
        feeAmount := if c.params.Fee = 0 then []
          else [{ Denom := c.params.Denom, Amount := c.params.Fee }],
        memo := memoOf src, signatures := [sig] }) := by
  have hmemo := randomString_ten src
  have hcoin := NewInt64Coin_of_valid _ _ hDenom (le_of_lt hAmount)
  have hcoins := NewCoins_single _ _ hDenom (le_of_lt hAmount)
  rw [if_neg (ne_of_gt hAmount)] at hcoins
  have hfeeCoin := NewInt64Coin_of_valid _ _ hDenom hFee
  have hfee := NewCoins_single _ _ hDenom hFee
  simp [CosmosClient.GenerateTx, hk1, hk2, ha1, ha2, hcoin, hcoins, NewMsgSend,
    TxBuilder.SetMsgs, hset, hfeeCoin, hfee,
    TxBuilder.SetGasLimit, TxBuilder.SetFeeAmount, TxBuilder.SetMemo, hmemo, hmode, hpub, hacc,
    TxBuilder.SetSignatures, hph, hloc, hpriv, hcast, hsign, hsig, TxBuilder.GetTx, henc]

/-- The scenario of the specification, and the same scenario with `Fee = 0`: each run
returns the encoding of the transaction with the one transfer of 1000 `token` from
`user1` to `user2` and gas limit 200000, with fee 100 `token` in the first and the empty
fee in the second. -/
theorem GenerateTx_returns_encoded_transfer_witness :
    ((exampleClient.GenerateTx exampleSdk exampleSrc).result =
      .bytes [1, 200000, 1, 100, 107, 114, 121, 70, 77, 84, 48, 55, 101, 10, 7, 3, 200000] ∧
    (exampleClient.GenerateTx exampleSdk exampleSrc).trace.getLast? = some (Event.encode
      { msgs := [{ FromAddress := { bytes := [1] }, ToAddress := { bytes := [2] },
                   Amount := [{ Denom := "token", Amount := 1000 }] }],
        gasLimit := 200000,
        feeAmount := [{ Denom := "token", Amount := 100 }],
        memo := "dkryFMT07e",
        signatures := [{ PubKey := { bytes := [11] },
                         Data := { SignMode := { val := 1 }, Signature := [10, 7, 3, 200000] },
                         Sequence := 3 }] })) ∧
    ((zeroFeeClient.GenerateTx exampleSdk exampleSrc).result =
      .bytes [1, 200000, 1, 100, 107, 114, 121, 70, 77, 84, 48, 55, 101, 10, 7, 3, 200000] ∧
    (zeroFeeClient.GenerateTx exampleSdk exampleSrc).trace.getLast? = some (Event.encode
      { msgs := [{ FromAddress := { bytes := [1] }, ToAddress := { bytes := [2] },
                   Amount := [{ Denom := "token", Amount := 1000 }] }],
        gasLimit := 200000,
        feeAmount := [],
        memo := "dkryFMT07e",
        signatures := [{ PubKey := { bytes := [11] },
                         Data := { SignMode := { val := 1 }, Signature := [10, 7, 3, 200000] },
                         Sequence := 3 }] })) :=
  ⟨GenerateTx_returns_encoded_transfer exampleSdk exampleSrc exampleClient
    user1Record user2Record { bytes := [1] } { bytes := [2] }
    { val := 1 } { bytes := [11] } { GetAccountNumber := 7, GetSequence := 3 }
    { PrivKey := some { GetCachedValue := .privKey { bytes := [10] } } }
    { GetCachedValue := .privKey { bytes := [10] } } { bytes := [10] }
    { PubKey := { bytes := [11] },
      Data := { SignMode := { val := 1 }, Signature := [10, 7, 3, 200000] }, Sequence := 3 }
    [1, 200000, 1, 100, 107, 114, 121, 70, 77, 84, 48, 55, 101, 10, 7, 3, 200000]
    (by decide) (by decide) (by decide) rfl rfl rfl rfl rfl rfl rfl rfl rfl rfl rfl rfl rfl
    rfl rfl,
   GenerateTx_returns_encoded_transfer exampleSdk exampleSrc zeroFeeClient
    user1Record user2Record { bytes := [1] } { bytes := [2] }
    { val := 1 } { bytes := [11] } { GetAccountNumber := 7, GetSequence := 3 }
    { PrivKey := some { GetCachedValue := .privKey { bytes := [10] } } }
    { GetCachedValue := .privKey { bytes := [10] } } { bytes := [10] }
    { PubKey := { bytes := [11] },
      Data := { SignMode := { val := 1 }, Signature := [10, 7, 3, 200000] }, Sequence := 3 }
    [1, 200000, 1, 100, 107, 114, 121, 70, 77, 84, 48, 55, 101, 10, 7, 3, 200000]
    (by decide) (by decide) (by decide) rfl rfl rfl rfl rfl rfl rfl rfl rfl rfl rfl rfl rfl
    rfl rfl⟩

/-- C2. In every call of `GenerateTx` that returns bytes, the account state of the
sender's address was looked up during the call, and the sequence it returned is the
sequence of the placeholder signature, the sequence of the signer data that is signed
(next to the looked-up account number, the sender's public key and the chain id of the
context), the sequence handed to the signing function, and, for a signing function that
puts the sequence it is given into the signature it returns, the sequence of the
signature of the encoded transaction. -/
theorem GenerateTx_sequence_from_account_lookup
    (sdk : Sdk) (src : RandSource) (c : CosmosClient) (bz : Bytes)
    (hsdk : ∀ mode data b priv cfg accSeq sig,
      sdk.SignWithPrivKey mode data b priv cfg accSeq = .ok sig → sig.Sequence = accSeq)
    (hok : (c.GenerateTx sdk src).result = .bytes bz) :
    ∃ r1 addr1 r1Pub acc1 mode b r1Priv sig tx,
      c.clientCtx.Keyring.Key "user1" = .ok r1 ∧ r1.GetAddress = .ok addr1 ∧
      r1.GetPubKey = .ok r1Pub ∧
      c.clientCtx.AccountRetriever.GetAccount addr1 = .ok acc1 ∧
      Event.accountLookup addr1 ∈ (c.GenerateTx sdk src).trace ∧
      (c.GenerateTx sdk src).trace.filter Event.isSigning =
        [ .setSignatures [{ PubKey := r1Pub, Data := { SignMode := mode, Signature := [] },
                            Sequence := acc1.GetSequence }],
          .sign mode
            { ChainID := c.clientCtx.ChainID, AccountNumber := acc1.GetAccountNumber,
              Sequence := acc1.GetSequence, PubKey := r1Pub }
            b r1Priv acc1.GetSequence,
          .setSignatures [sig],
          .encode tx ] ∧
      sdk.SignWithPrivKey mode
        { ChainID := c.clientCtx.ChainID, AccountNumber := acc1.GetAccountNumber,
          Sequence := acc1.GetSequence, PubKey := r1Pub }
        b r1Priv c.clientCtx.TxConfig acc1.GetSequence = .ok sig ∧
      b.signatures = [{ PubKey := r1Pub, Data := { SignMode := mode, Signature := [] },
                        Sequence := acc1.GetSequence }] ∧
      tx.signatures = [sig] ∧ sig.Sequence = acc1.GetSequence ∧
      c.clientCtx.TxConfig.TxEncoder tx = .ok bz := by
  revert hok
  unfold CosmosClient.GenerateTx
  dsimp only
  generalize randomString 10 src = r
  repeat' split
  all_goals intro hok
  all_goals first | (simp at hok; done) | skip
  rename_i _ r1 hk1 _ r2 hk2 _ addr1 ha1 _ addr2 ha2 _ coin hcoin _ amount hamount _ msg1 hmsg _
    txb1 hset _ feeCoin hfeeCoin _ fee hfee _ memo src1 _ mode
    hmode _ r1Pub hpub _ acc1 hacc _ txb2 hph _ r1Local hloc _ r1PrivAny hpriv _ r1Priv hcast _
    sig hsign _ txb3 hsig _ bz1 henc
  simp only [SetSignatures_eq_ok] at hph hsig
  obtain ⟨_, rfl⟩ := hsig
  obtain ⟨_, rfl⟩ := hph
  simp only [Outcome.bytes.injEq] at hok
  subst hok
  refine ⟨r1, addr1, r1Pub, acc1, mode, _, r1Priv, sig, _, hk1, ha1, hpub, hacc, ?_, ?_,
    hsign, ?_, ?_, hsdk _ _ _ _ _ _ _ hsign, henc⟩
  · simp
  · simp [Event.isSigning, List.filter]
  · rfl
  · rfl

/-- The scenario of the specification: the account lookup returns sequence 3, and 3 is
the sequence of the placeholder, of the signer data, of the signing call and of the
signature of the encoded transaction. -/
theorem GenerateTx_sequence_from_account_lookup_witness :
    ∃ r1 addr1 r1Pub acc1 mode b r1Priv sig tx,
      exampleClient.clientCtx.Keyring.Key "user1" = .ok r1 ∧ r1.GetAddress = .ok addr1 ∧
      r1.GetPubKey = .ok r1Pub ∧
      exampleClient.clientCtx.AccountRetriever.GetAccount addr1 = .ok acc1 ∧
      Event.accountLookup addr1 ∈ (exampleClient.GenerateTx exampleSdk exampleSrc).trace ∧
      (exampleClient.GenerateTx exampleSdk exampleSrc).trace.filter Event.isSigning =
        [ .setSignatures [{ PubKey := r1Pub, Data := { SignMode := mode, Signature := [] },
                            Sequence := acc1.GetSequence }],
          .sign mode
            { ChainID := exampleClient.clientCtx.ChainID,
              AccountNumber := acc1.GetAccountNumber,
              Sequence := acc1.GetSequence, PubKey := r1Pub }
            b r1Priv acc1.GetSequence,
          .setSignatures [sig],
          .encode tx ] ∧
      exampleSdk.SignWithPrivKey mode
        { ChainID := exampleClient.clientCtx.ChainID, AccountNumber := acc1.GetAccountNumber,
          Sequence := acc1.GetSequence, PubKey := r1Pub }
        b r1Priv exampleClient.clientCtx.TxConfig acc1.GetSequence = .ok sig ∧
      b.signatures = [{ PubKey := r1Pub, Data := { SignMode := mode, Signature := [] },
                        Sequence := acc1.GetSequence }] ∧
      tx.signatures = [sig] ∧ sig.Sequence = acc1.GetSequence ∧
      exampleClient.clientCtx.TxConfig.TxEncoder tx =
        .ok [1, 200000, 1, 100, 107, 114, 121, 70, 77, 84, 48, 55, 101, 10, 7, 3, 200000] :=
  GenerateTx_sequence_from_account_lookup exampleSdk exampleSrc exampleClient
    [1, 200000, 1, 100, 107, 114, 121, 70, 77, 84, 48, 55, 101, 10, 7, 3, 200000]
    (fun _ _ _ _ _ _ _ h => by cases h; rfl) rfl

/-- C3. If the key store fails to resolve `user1` or fails to resolve `user2`, or if
the account-state lookup that the call makes fails, then `GenerateTx` returns an error
that wraps the error of the failing collaborator under the context of the failed step,
returns no bytes, and makes no signing call: it sets no signature, signs nothing and
encodes nothing. -/
theorem GenerateTx_lookup_failure (sdk : Sdk) (src : RandSource) (c : CosmosClient)
    (hfail : (∃ e, c.clientCtx.Keyring.Key "user1" = .error e) ∨
      (∃ e, c.clientCtx.Keyring.Key "user2" = .error e) ∨
      (∃ addr e, Event.accountLookup addr ∈ (c.GenerateTx sdk src).trace ∧
        c.clientCtx.AccountRetriever.GetAccount addr = .error e)) :
    ((∃ e, c.clientCtx.Keyring.Key "user1" = .error e ∧
        (c.GenerateTx sdk src).result = .error (Errorf_w "failed to get user1 key: " e)) ∨
     (∃ e, c.clientCtx.Keyring.Key "user2" = .error e ∧
        (c.GenerateTx sdk src).result = .error (Errorf_w "failed to get user2 key: " e)) ∨
     (∃ r1 addr1 e, c.clientCtx.Keyring.Key "user1" = .ok r1 ∧ r1.GetAddress = .ok addr1 ∧
        c.clientCtx.AccountRetriever.GetAccount addr1 = .error e ∧
        (c.GenerateTx sdk src).result =
          .error (Errorf_w "failed to get account number: " e))) ∧
    (∀ ev ∈ (c.GenerateTx sdk src).trace, ev.isSigning = false) := by
  revert hfail
  unfold CosmosClient.GenerateTx
  dsimp only
  generalize randomString 10 src = r
  repeat' split
  all_goals intro hfail
  all_goals simp_all [Event.isSigning]

/-- The runs of the scenario without `user1` in the key store and with the account
state unavailable: each returns the wrapped error of the failing lookup and makes no
signing call. -/
theorem GenerateTx_lookup_failure_witness :
    (((∃ e, missingKeyClient.clientCtx.Keyring.Key "user1" = .error e ∧
        (missingKeyClient.GenerateTx exampleSdk exampleSrc).result =
          .error (Errorf_w "failed to get user1 key: " e)) ∨
     (∃ e, missingKeyClient.clientCtx.Keyring.Key "user2" = .error e ∧
        (missingKeyClient.GenerateTx exampleSdk exampleSrc).result =
          .error (Errorf_w "failed to get user2 key: " e)) ∨
     (∃ r1 addr1 e, missingKeyClient.clientCtx.Keyring.Key "user1" = .ok r1 ∧
        r1.GetAddress = .ok addr1 ∧
        missingKeyClient.clientCtx.AccountRetriever.GetAccount addr1 = .error e ∧
        (missingKeyClient.GenerateTx exampleSdk exampleSrc).result =
          .error (Errorf_w "failed to get account number: " e))) ∧
    (∀ ev ∈ (missingKeyClient.GenerateTx exampleSdk exampleSrc).trace,
      ev.isSigning = false)) ∧
    (((∃ e, missingAccountClient.clientCtx.Keyring.Key "user1" = .error e ∧
        (missingAccountClient.GenerateTx exampleSdk exampleSrc).result =
          .error (Errorf_w "failed to get user1 key: " e)) ∨
     (∃ e, missingAccountClient.clientCtx.Keyring.Key "user2" = .error e ∧
        (missingAccountClient.GenerateTx exampleSdk exampleSrc).result =
          .error (Errorf_w "failed to get user2 key: " e)) ∨
     (∃ r1 addr1 e, missingAccountClient.clientCtx.Keyring.Key "user1" = .ok r1 ∧
        r1.GetAddress = .ok addr1 ∧
        missingAccountClient.clientCtx.AccountRetriever.GetAccount addr1 = .error e ∧
        (missingAccountClient.GenerateTx exampleSdk exampleSrc).result =
          .error (Errorf_w "failed to get account number: " e))) ∧
    (∀ ev ∈ (missingAccountClient.GenerateTx exampleSdk exampleSrc).trace,
      ev.isSigning = false)) :=
  ⟨GenerateTx_lookup_failure exampleSdk exampleSrc missingKeyClient
      (Or.inl ⟨.errorString "key not found", rfl⟩),
   GenerateTx_lookup_failure exampleSdk exampleSrc missingAccountClient
      (Or.inr (Or.inr ⟨{ bytes := [1] }, .errorString "account not found", by decide, rfl⟩))⟩

/-- C4, as stated, fails: with `Amount = 0` and collaborators that succeed, `GenerateTx`
returns no error but the bytes of an encoded transaction, whose one message is a
transfer of an empty amount. -/
theorem GenerateTx_zero_amount_returns_bytes :
    zeroAmountClient.params.Amount ≤ 0 ∧
    (zeroAmountClient.GenerateTx exampleSdk exampleSrc).result =
      .bytes [1, 200000, 0, 100, 107, 114, 121, 70, 77, 84, 48, 55, 101, 10, 7, 3, 200000] ∧
    (¬ ∃ e, (zeroAmountClient.GenerateTx exampleSdk exampleSrc).result = .error e) ∧
    (zeroAmountClient.GenerateTx exampleSdk exampleSrc).trace.getLast? = some (Event.encode
      { msgs := [{ FromAddress := { bytes := [1] }, ToAddress := { bytes := [2] },
                   Amount := [] }],
        gasLimit := 200000,
        feeAmount := [{ Denom := "token", Amount := 100 }],
        memo := "dkryFMT07e",
        signatures := [{ PubKey := { bytes := [11] },
                         Data := { SignMode := { val := 1 }, Signature := [10, 7, 3, 200000] },
                         Sequence := 3 }] }) := by
  have hb : (zeroAmountClient.GenerateTx exampleSdk exampleSrc).result =
      .bytes [1, 200000, 0, 100, 107, 114, 121, 70, 77, 84, 48, 55, 101, 10, 7, 3, 200000] := by
    decide
  refine ⟨by decide, hb, ?_, by decide⟩
  rintro ⟨e, he⟩
  rw [hb] at he
  cases he

/-- C4, amended. For every client whose params have `Amount < 0` or an empty `Denom`,
whatever the other fields and whatever the collaborators return, `GenerateTx` returns no
bytes and calls nothing but the key lookups, so it never returns an encoded transaction
carrying a transfer of a negative amount or of an empty denomination. `Amount = 0` is not
refused: with a valid `Denom`, once both keys and both addresses are resolved, the
transfer message is built with an empty amount and set on the builder. -/
theorem GenerateTx_invalid_transfer_no_bytes
    (sdk : Sdk) (src : RandSource) (c : CosmosClient) :
    ((c.params.Amount < 0 ∨ c.params.Denom = "") →
      (∀ bz, (c.GenerateTx sdk src).result ≠ .bytes bz) ∧
      (∀ ev ∈ (c.GenerateTx sdk src).trace,
        ev = .keyLookup "user1" ∨ ev = .keyLookup "user2")) ∧
    (c.params.Amount = 0 → ValidateDenom c.params.Denom = true →
      ∀ r1 r2 addr1 addr2,
        c.clientCtx.Keyring.Key "user1" = .ok r1 →
        c.clientCtx.Keyring.Key "user2" = .ok r2 →
        r1.GetAddress = .ok addr1 → r2.GetAddress = .ok addr2 →
        Event.setMsgs [{ FromAddress := addr1, ToAddress := addr2, Amount := [] }] ∈
          (c.GenerateTx sdk src).trace) := by
  constructor
  · intro h
    have hcoin : ∃ msg, NewInt64Coin c.params.Denom c.params.Amount = .error msg := by
      apply NewInt64Coin_panics
      rcases h with h | h
      · exact Or.inl h
      · exact Or.inr (by rw [h]; exact ValidateDenom_empty)
    obtain ⟨msg, hmsg⟩ := hcoin
    unfold CosmosClient.GenerateTx
    dsimp only
    generalize randomString 10 src = r
    repeat' split
    all_goals simp_all
  · intro h0 hd r1 r2 addr1 addr2 hk1 hk2 ha1 ha2
    have hcoin := NewInt64Coin_of_valid _ _ hd (le_of_eq h0.symm)
    have hcoins := NewCoins_single _ _ hd (le_of_eq h0.symm)
    rw [if_pos h0] at hcoins
    unfold CosmosClient.GenerateTx
    dsimp only
    generalize randomString 10 src = r
    simp only [hk1, hk2, ha1, ha2, hcoin, hcoins, NewMsgSend]
    repeat' split
    all_goals simp_all

/-- The runs of the scenario with `Amount = -1` and with an empty `Denom` return no bytes
and stop after the key lookups; the run with `Amount = 0` sets the transfer message with
an empty amount. -/
theorem GenerateTx_invalid_transfer_no_bytes_witness :
    ((∀ bz, (negativeAmountClient.GenerateTx exampleSdk exampleSrc).result ≠ .bytes bz) ∧
      (∀ ev ∈ (negativeAmountClient.GenerateTx exampleSdk exampleSrc).trace,
        ev = .keyLookup "user1" ∨ ev = .keyLookup "user2")) ∧
    ((∀ bz, (emptyDenomClient.GenerateTx exampleSdk exampleSrc).result ≠ .bytes bz) ∧
      (∀ ev ∈ (emptyDenomClient.GenerateTx exampleSdk exampleSrc).trace,
        ev = .keyLookup "user1" ∨ ev = .keyLookup "user2")) ∧
    Event.setMsgs [{ FromAddress := { bytes := [1] }, ToAddress := { bytes := [2] },
                     Amount := [] }] ∈
      (zeroAmountClient.GenerateTx exampleSdk exampleSrc).trace :=
  ⟨(GenerateTx_invalid_transfer_no_bytes exampleSdk exampleSrc negativeAmountClient).1
      (Or.inl (by decide)),
   (GenerateTx_invalid_transfer_no_bytes exampleSdk exampleSrc emptyDenomClient).1
      (Or.inr rfl),
   (GenerateTx_invalid_transfer_no_bytes exampleSdk exampleSrc zeroAmountClient).2
      rfl (by decide) user1Record user2Record { bytes := [1] } { bytes := [2] }
      rfl rfl rfl rfl⟩

/-- C5, as stated, fails: a factory whose parameters have `Fee < 0`, `Amount = 0` and an
empty `Denom` is not structurally acceptable, and `ValidateConfig` returns no error for
it. -/
theorem ValidateConfig_accepts_unacceptable :
    ¬ structurallyAcceptable unacceptableFactory.params ∧
    (unacceptableFactory.ValidateConfig ()).1 = none := by
  refine ⟨?_, rfl⟩
  rintro ⟨h, _⟩
  exact absurd h (by decide)

/-- C5, amended. `ValidateConfig` returns no error for every factory and every
configuration, and leaves the factory, its params and its context, unchanged. -/
theorem ValidateConfig_always_ok {Config : Type} (f : CosmosClientFactory) (cfg : Config) :
    (f.ValidateConfig cfg).1 = none ∧ (f.ValidateConfig cfg).2 = f ∧
    (f.ValidateConfig cfg).2.params = f.params ∧
    (f.ValidateConfig cfg).2.clientCtx = f.clientCtx :=
  ⟨rfl, rfl, rfl, rfl⟩

/-- C8, failing input. When every step up to the encoder succeeds and the encoder
fails, `GenerateTx` returns the encoder's error itself: the error carries none of the
step contexts and wraps nothing. -/
theorem GenerateTx_encoder_error_is_bare :
    (failingEncoderClient.GenerateTx exampleSdk exampleSrc).result =
      .error (.errorString "marshal failed") ∧
    (∀ tx, failingEncoderClient.clientCtx.TxConfig.TxEncoder tx =
      .error (.errorString "marshal failed")) ∧
    ¬ carriesStepContext (.errorString "marshal failed") ∧
    (GoError.errorString "marshal failed").Unwrap = none := by
  refine ⟨by decide, fun _ => rfl, ?_, rfl⟩
  rintro ⟨ctx, hctx, h⟩
  simp only [stepContexts, List.mem_cons, List.mem_singleton, List.not_mem_nil, or_false] at hctx
  rcases h with h | ⟨err, h⟩
  · simp only [Errorf, GoError.errorString.injEq] at h
    subst h
    revert hctx
    decide
  · simp [Errorf_w] at h

/-- Every error `GenerateTx` returns carries the context of the failed step, except
the error of the encoder, which is returned as the encoder gave it. -/
theorem GenerateTx_error_context (sdk : Sdk) (src : RandSource) (c : CosmosClient)
    (e : GoError) (h : (c.GenerateTx sdk src).result = .error e) :
    carriesStepContext e ∨
    ∃ tx, Event.encode tx ∈ (c.GenerateTx sdk src).trace ∧
      c.clientCtx.TxConfig.TxEncoder tx = .error e := by
  unfold CosmosClient.GenerateTx at h ⊢
  dsimp only at h ⊢
  generalize randomString 10 src = r at h ⊢
  repeat' split at h
  all_goals simp only [Outcome.error.injEq] at h
  all_goals first
    | (subst h
       left
       refine ⟨_, ?_, Or.inr ⟨_, rfl⟩⟩
       simp [stepContexts])
    | (subst h
       left
       refine ⟨_, ?_, Or.inl rfl⟩
       simp [stepContexts])
    | (subst h
       right
       simp_all [TxBuilder.GetTx])
    | (exact absurd h (by simp))

/-- C9. In every run of `GenerateTx` the signing calls occur in order without skipping:
they are an initial part of the sequence "set the placeholder signature (the sender's
public key, the default sign mode, the fetched sequence, empty signature bytes), sign over
the builder that carries the placeholder, set the computed signature, encode". The
transaction handed to the encoder carries the computed signature in place of the
placeholder; a run that returns bytes made all four calls, and a run in which the encoder
is called ends with what the encoder returned, so a run that failed at an earlier step
did not call the encoder. -/
theorem GenerateTx_signing_phases_in_order (sdk : Sdk) (src : RandSource)
    (c : CosmosClient) :
    ((c.GenerateTx sdk src).trace.filter Event.isSigning = [] ∨
     ∃ r1 addr1 r1Pub mode acc1,
      c.clientCtx.Keyring.Key "user1" = .ok r1 ∧ r1.GetAddress = .ok addr1 ∧
      r1.GetPubKey = .ok r1Pub ∧
      sdk.APISignModeToInternal c.clientCtx.TxConfig.DefaultMode = .ok mode ∧
      c.clientCtx.AccountRetriever.GetAccount addr1 = .ok acc1 ∧
      ((c.GenerateTx sdk src).trace.filter Event.isSigning =
          [.setSignatures [⟨r1Pub, ⟨mode, []⟩, acc1.GetSequence⟩]] ∨
       ∃ b r1Priv,
        b.signatures = [⟨r1Pub, ⟨mode, []⟩, acc1.GetSequence⟩] ∧
        ((c.GenerateTx sdk src).trace.filter Event.isSigning =
          [.setSignatures [⟨r1Pub, ⟨mode, []⟩, acc1.GetSequence⟩],
           .sign mode ⟨c.clientCtx.ChainID, acc1.GetAccountNumber, acc1.GetSequence, r1Pub⟩ b
             r1Priv acc1.GetSequence] ∨
         ∃ sig,
          sdk.SignWithPrivKey mode
            ⟨c.clientCtx.ChainID, acc1.GetAccountNumber, acc1.GetSequence, r1Pub⟩ b r1Priv
            c.clientCtx.TxConfig acc1.GetSequence = .ok sig ∧
          ((c.GenerateTx sdk src).trace.filter Event.isSigning =
            [.setSignatures [⟨r1Pub, ⟨mode, []⟩, acc1.GetSequence⟩],
             .sign mode ⟨c.clientCtx.ChainID, acc1.GetAccountNumber, acc1.GetSequence, r1Pub⟩ b
               r1Priv acc1.GetSequence,
             .setSignatures [sig]] ∨
           (c.GenerateTx sdk src).trace.filter Event.isSigning =
            [.setSignatures [⟨r1Pub, ⟨mode, []⟩, acc1.GetSequence⟩],
             .sign mode ⟨c.clientCtx.ChainID, acc1.GetAccountNumber, acc1.GetSequence, r1Pub⟩ b
               r1Priv acc1.GetSequence,
             .setSignatures [sig],
             .encode { b with signatures := [sig] }])))) ∧
    (∀ bz, (c.GenerateTx sdk src).result = .bytes bz →
      ∃ tx, Event.encode tx ∈ (c.GenerateTx sdk src).trace ∧
        c.clientCtx.TxConfig.TxEncoder tx = .ok bz) ∧
    (∀ tx, Event.encode tx ∈ (c.GenerateTx sdk src).trace →
      (c.GenerateTx sdk src).result =
        (match c.clientCtx.TxConfig.TxEncoder tx with
          | .ok bz => Outcome.bytes bz
          | .error err => Outcome.error err)) :=
  ⟨GenerateTx_signing_calls sdk src c, GenerateTx_bytes_encoded sdk src c,
    GenerateTx_result_of_encode sdk src c⟩

/-- C10, failing input. When the key record resolved for `user1` has no local item, as
for a ledger key, the statement `r1Local.PrivKey` dereferences a `nil` pointer and the
call panics instead of returning an error. -/
theorem GenerateTx_nonlocal_key_panics :
    (∃ r1, ledgerClient.clientCtx.Keyring.Key "user1" = .ok r1 ∧ r1.GetLocal = none) ∧
    (ledgerClient.GenerateTx exampleSdk exampleSrc).result =
      .panicked "runtime error: invalid memory address or nil pointer dereference" ∧
    (¬ ∃ e, (ledgerClient.GenerateTx exampleSdk exampleSrc).result = .error e) ∧
    (¬ ∃ bz, (ledgerClient.GenerateTx exampleSdk exampleSrc).result = .bytes bz) := by
  have hp : (ledgerClient.GenerateTx exampleSdk exampleSrc).result =
      .panicked "runtime error: invalid memory address or nil pointer dereference" := by decide
  refine ⟨⟨ledgerRecord, rfl, rfl⟩, hp, ?_, ?_⟩
  · rintro ⟨e, he⟩
    rw [hp] at he
    cases he
  · rintro ⟨bz, hbz⟩
    rw [hp] at hbz
    cases hbz

/-- The private-key extraction of `GenerateTx`, once the placeholder signature is set:
a record without a local item makes the call panic; a `nil` private key and a cached
value that is no private key make it return an error. -/
theorem GenerateTx_private_key_extraction
    (sdk : Sdk) (src : RandSource) (c : CosmosClient)
    (r1 r2 : Record) (addr1 addr2 : AccAddress) (mode : SignMode)
    (r1Pub : PubKey) (acc1 : Account)
    (hFee : 0 ≤ c.params.Fee) (hAmount : 0 ≤ c.params.Amount)
    (hDenom : ValidateDenom c.params.Denom = true)
    (hk1 : c.clientCtx.Keyring.Key "user1" = .ok r1)
    (hk2 : c.clientCtx.Keyring.Key "user2" = .ok r2)
    (ha1 : r1.GetAddress = .ok addr1)
    (ha2 : r2.GetAddress = .ok addr2)
    (hset : ∀ msgs, c.clientCtx.TxConfig.SetMsgsErr msgs = none)
    (hmode : sdk.APISignModeToInternal c.clientCtx.TxConfig.DefaultMode = .ok mode)
    (hpub : r1.GetPubKey = .ok r1Pub)
    (hacc : c.clientCtx.AccountRetriever.GetAccount addr1 = .ok acc1)
    (hph : c.clientCtx.TxConfig.SetSignaturesErr
      [{ PubKey := r1Pub, Data := { SignMode := mode, Signature := [] },
         Sequence := acc1.GetSequence }] = none) :
    (r1.GetLocal = none →
      (c.GenerateTx sdk src).result =
        .panicked "runtime error: invalid memory address or nil pointer dereference") ∧
    (∀ r1Local, r1.GetLocal = some r1Local → r1Local.PrivKey = none →
      (c.GenerateTx sdk src).result = .error (Errorf "private key is nil")) ∧
    (∀ r1Local r1PrivAny, r1.GetLocal = some r1Local → r1Local.PrivKey = some r1PrivAny →
      r1PrivAny.GetCachedValue = .other →
      (c.GenerateTx sdk src).result =
        .error (Errorf "failed to cast private key from record 1")) := by
  have hmemo := randomString_ten src
  have hcoin := NewInt64Coin_of_valid _ _ hDenom hAmount
  have hcoins := NewCoins_single _ _ hDenom hAmount
  have hfeeCoin := NewInt64Coin_of_valid _ _ hDenom hFee
  have hfee := NewCoins_single _ _ hDenom hFee
  refine ⟨?_, ?_, ?_⟩
  · intro hloc
    simp [CosmosClient.GenerateTx, hk1, hk2, ha1, ha2, hcoin, hcoins, NewMsgSend,
      TxBuilder.SetMsgs, hset, hfeeCoin, hfee,
      TxBuilder.SetGasLimit, TxBuilder.SetFeeAmount, TxBuilder.SetMemo, hmemo, hmode, hpub,
      hacc, TxBuilder.SetSignatures, hph, hloc]
  · intro r1Local hloc hpriv
    simp [CosmosClient.GenerateTx, hk1, hk2, ha1, ha2, hcoin, hcoins, NewMsgSend,
      TxBuilder.SetMsgs, hset, hfeeCoin, hfee,
      TxBuilder.SetGasLimit, TxBuilder.SetFeeAmount, TxBuilder.SetMemo, hmemo, hmode, hpub,
      hacc, TxBuilder.SetSignatures, hph, hloc, hpriv]
  · intro r1Local r1PrivAny hloc hpriv hcast
    simp [CosmosClient.GenerateTx, hk1, hk2, ha1, ha2, hcoin, hcoins, NewMsgSend,
      TxBuilder.SetMsgs, hset, hfeeCoin, hfee,
      TxBuilder.SetGasLimit, TxBuilder.SetFeeAmount, TxBuilder.SetMemo, hmemo, hmode, hpub,
      hacc, TxBuilder.SetSignatures, hph, hloc, hpriv, hcast]

end ManifestLoadTest
